import Mathlib

/-
Verification of the MAVLink FTP client engine (mavlink_ftp_client.cpp).

This file gives a shallow embedding of the client side of the MAVLink
file-transfer protocol engine: the payload header, the work-queue items, the
inbound-message dispatch (process_mavlink_ftp_message), the download and
upload state machines (download_start, download_continue, upload_start,
upload_continue), the NAK translation (result_from_nak, _translate), the
timeout-and-retry driver (timeout), and the single-shot entry points
(rename_async, create_directory_async and friends).

Engine mutations are modelled by explicit state passing; the external
collaborators (transport send, timer arm/stop, user callbacks) are modelled
as an emitted list of actions. Local filesystem outcomes (whether an open,
a stream write or a stream read succeeded, and the bytes a read returned)
are inputs to the functions that consult them, mirroring the stream checks
in the source. Machine integers are Nat (with explicit mod where the source
truncates) and Int where the source uses a signed int.
-/

namespace MavlinkFtpClient

/-- Modelled from the spec: max_data_length is declared in
mavlink_ftp_client.h, which is not part of the sources here; the spec fixes
the data region of a payload at up to 239 bytes. -/
def max_data_length : Nat := 239

/-- Modelled from the spec: RETRIES is declared in mavlink_ftp_client.h,
which is not part of the sources here. The spec fixes the default at 4
retries, i.e. 5 total transmission attempts; with the decrement-then-test
loop in timeout(), that means an initial counter value of 5. -/
def RETRIES : Int := 5

/-- POSIX errno value for a missing file, from the system errno.h. -/
def ENOENT : Nat := 2

-- Request and response opcodes (u8 values fixed by the MAVLink FTP
-- protocol and listed in the spec; the enum itself is declared in
-- mavlink_ftp_client.h).
def CMD_NONE : Nat := 0
def CMD_TERMINATE_SESSION : Nat := 1
def CMD_RESET_SESSIONS : Nat := 2
def CMD_LIST_DIRECTORY : Nat := 3
def CMD_OPEN_FILE_RO : Nat := 4
def CMD_READ_FILE : Nat := 5
def CMD_CREATE_FILE : Nat := 6
def CMD_WRITE_FILE : Nat := 7
def CMD_REMOVE_FILE : Nat := 8
def CMD_CREATE_DIRECTORY : Nat := 9
def CMD_REMOVE_DIRECTORY : Nat := 10
def CMD_OPEN_FILE_WO : Nat := 11
def CMD_TRUNCATE_FILE : Nat := 12
def CMD_RENAME : Nat := 13
def CMD_CALC_FILE_CRC32 : Nat := 14
def CMD_BURST_READ_FILE : Nat := 15
def RSP_ACK : Nat := 128
def RSP_NAK : Nat := 129

-- Server result codes, as the u8 carried in the first data byte of a NAK.
-- Modelled from the spec: the enum is declared in mavlink_ftp_client.h,
-- which is not part of the sources here; the spec lists the wire codes in
-- declaration order (SUCCESS first), the internal-use codes follow.
def SR_SUCCESS : Nat := 0
def SR_ERR_FAIL : Nat := 1
def SR_ERR_FAIL_ERRNO : Nat := 2
def SR_ERR_INVALID_DATA_SIZE : Nat := 3
def SR_ERR_INVALID_SESSION : Nat := 4
def SR_ERR_NO_SESSIONS_AVAILABLE : Nat := 5
def SR_ERR_EOF : Nat := 6
def SR_ERR_UNKOWN_COMMAND : Nat := 7
def SR_ERR_FAIL_FILE_EXISTS : Nat := 8
def SR_ERR_FAIL_FILE_PROTECTED : Nat := 9
def SR_ERR_FAIL_FILE_DOES_NOT_EXIST : Nat := 10
def SR_ERR_TIMEOUT : Nat := 11
def SR_ERR_FILE_IO_ERROR : Nat := 12

/-- Client-facing result codes (MavlinkFtpClient::ClientResult). -/
inductive ClientResult
  | Unknown
  | Success
  | Next
  | Timeout
  | Busy
  | FileIoError
  | FileExists
  | FileDoesNotExist
  | FileProtected
  | InvalidParameter
  | Unsupported
  | ProtocolError
  | NoSystem
deriving DecidableEq

/-- Progress data handed to progress callbacks. -/
structure ProgressData where
  bytes_transferred : Nat := 0
  total_bytes : Nat := 0
deriving DecidableEq

/-- The 12-byte FTP payload header plus data region (PayloadHeader).
Byte and word fields are Nat; writers that assign wider values into the u8
size field reduce mod 256 as the hardware does. The data region is a byte
list; bytes beyond its length read as 0, matching the zero-initialised
buffer in the source. -/
structure PayloadHeader where
  seq_number : Nat := 0
  session : Nat := 0
  opcode : Nat := 0
  size : Nat := 0
  req_opcode : Nat := 0
  burst_complete : Nat := 0
  padding : Nat := 0
  offset : Nat := 0
  data : List Nat := []
deriving DecidableEq

/-- Read byte i of the data region (zero-initialised buffer in the source). -/
def dataAt (p : PayloadHeader) (i : Nat) : Nat := p.data.getD i 0

/-- Decode a little-endian u32 from the first four data bytes, as the
source casts data[0..4] through a uint32_t pointer. -/
def u32LE (d : List Nat) : Nat :=
  d.getD 0 0 + 256 * d.getD 1 0 + 65536 * d.getD 2 0 + 16777216 * d.getD 3 0

/-- Bytes written into a payload data region by strncpy(data, path, 238):
at most max_data_length - 1 characters of the path, the rest of the
zero-initialised buffer staying zero. -/
def pathData (path : String) : List Nat :=
  (path.data.map Char.toNat).take (max_data_length - 1)

/-- Per-download state carried on the work item (DownloadItem), local file
handle omitted (its health enters as an explicit flag where consulted). -/
structure DownloadItem where
  remote_path : String := ""
  local_folder : String := ""
  bytes_transferred : Nat := 0
  file_size : Nat := 0
  last_progress_percentage : Int := 0
deriving DecidableEq

/-- Per-upload state carried on the work item (UploadItem). -/
structure UploadItem where
  local_file_path : String := ""
  remote_folder : String := ""
  bytes_transferred : Nat := 0
  file_size : Nat := 0
deriving DecidableEq

/-- The variant over the operation kinds the work queue carries
(std::variant<DownloadItem, UploadItem> in the source). -/
inductive WorkItem
  | download (item : DownloadItem)
  | upload (item : UploadItem)
deriving DecidableEq

/-- A work-queue entry (Work): the item plus the shared bookkeeping fields.
retries is a signed int in the source. -/
structure Work where
  item : WorkItem
  last_opcode : Nat := CMD_NONE
  last_seq_number : Nat := 0
  retries : Int := RETRIES
  started : Bool := false
  payload : PayloadHeader := {}
deriving DecidableEq

/-- Engine-wide mutable state consulted by the work-queue paths:
the monotonic u16 _seq_number and the u8 _session. -/
structure EngineState where
  seq_number : Nat := 0
  session : Nat := 0
deriving DecidableEq

/-- Effects on the external collaborators: a frame handed to the transport,
a user callback invocation, and timer arm / stop. start_timer in the source
unregisters and re-registers the one-shot timer. -/
inductive Action
  | send (payload : PayloadHeader)
  | callback (result : ClientResult) (progress : Option ProgressData)
  | startTimer
  | stopTimer
deriving DecidableEq

/-- Post-increment of the u16 _seq_number. -/
def bumpSeq (st : EngineState) : EngineState :=
  { st with seq_number := (st.seq_number + 1) % 65536 }

/-- Serial-number comparison seq_lt (modulo 2^16), as in the source. -/
def seq_lt (a b : Nat) : Prop :=
  (a < b ∧ b - a < 32767) ∨ (a > b ∧ a - b > 32767)

instance : DecidablePred fun p : Nat × Nat => seq_lt p.1 p.2 := by
  intro p
  unfold seq_lt
  infer_instance

/-- Translation table from a server result byte to a client result
(MavlinkFtpClient::_translate); any unmapped code falls to ProtocolError. -/
def translate (b : Nat) : ClientResult :=
  if b = SR_SUCCESS then ClientResult.Success
  else if b = SR_ERR_TIMEOUT then ClientResult.Timeout
  else if b = SR_ERR_FILE_IO_ERROR then ClientResult.FileIoError
  else if b = SR_ERR_FAIL_FILE_EXISTS then ClientResult.FileExists
  else if b = SR_ERR_FAIL_FILE_PROTECTED then ClientResult.FileProtected
  else if b = SR_ERR_UNKOWN_COMMAND then ClientResult.Unsupported
  else if b = SR_ERR_FAIL_FILE_DOES_NOT_EXIST then ClientResult.FileDoesNotExist
  else ClientResult.ProtocolError

/-- NAK handling (MavlinkFtpClient::result_from_nak): data[0] carries the
server code; ERR_FAIL_ERRNO with errno ENOENT in data[1] is remapped to
ERR_FAIL_FILE_DOES_NOT_EXIST before translation. -/
def result_from_nak (payload : PayloadHeader) : ClientResult :=
  let sr := dataAt payload 0
  let sr :=
    if sr = SR_ERR_FAIL_ERRNO ∧ dataAt payload 1 = ENOENT then
      SR_ERR_FAIL_FILE_DOES_NOT_EXIST
    else sr
  translate sr

/-- Whole-percent progress value as computed in
_call_op_progress_callback (100 * bytes_read / total_bytes, integer
division; a zero total is undefined behaviour in the source and maps to 0
here). -/
def progressPercentage (bytes_read total_bytes : Nat) : Nat :=
  100 * bytes_read / total_bytes

/-- Legacy throttled progress reporter
(MavlinkFtpClient::_call_op_progress_callback): emits a Next callback only
when the whole-percent value differs from the stored
_last_progress_percentage, returning the updated stored value. -/
def call_op_progress_callback (last_pct : Int) (bytes_read total_bytes : Nat) :
    Int × List Action :=
  let percentage : Int := (progressPercentage bytes_read total_bytes : Nat)
  if last_pct ≠ percentage then
    (percentage,
      [Action.callback ClientResult.Next (some ⟨bytes_read, total_bytes⟩)])
  else
    (last_pct, [])

/-- Basename of a path. Modelled from the spec: fs_filename comes from the
filesystem collaborator (fs.h), not part of the sources here; the spec
calls it basename. The characters after the last separator are kept. -/
def fs_filename (path : String) : String :=
  String.mk (path.data.foldl (fun acc c => if c = '/' then [] else acc ++ [c]) [])

/-- Path separator from the filesystem collaborator. -/
def path_separator : String := "/"

/-- MavlinkFtpClient::download_start. open_ok tells whether opening the
local sink succeeded (item.ofstream health in the source). Returns the new
engine state, the updated work and item, the emitted actions, and the bool
the source returns (false means the caller pops the item). -/
def download_start (st : EngineState) (work : Work) (item : DownloadItem)
    (open_ok : Bool) :
    EngineState × Work × DownloadItem × List Action × Bool :=
  if !open_ok then
    (st, work, item, [Action.callback ClientResult.FileIoError none], false)
  else
    let item := { item with last_progress_percentage := -1 }
    let p : PayloadHeader :=
      { seq_number := st.seq_number
        session := 0
        opcode := CMD_OPEN_FILE_RO
        offset := 0
        data := pathData item.remote_path
        size := (item.remote_path.length + 1) % 256 }
    let work := { work with last_opcode := CMD_OPEN_FILE_RO, payload := p }
    (bumpSeq st, work, item, [Action.startTimer, Action.send p], true)

/-- MavlinkFtpClient::download_continue, dispatched on an accepted ACK of
OPEN_FILE_RO or READ_FILE. write_ok tells whether the local stream write in
the READ_FILE branch succeeded. Note the source reuses work.payload for the
next READ_FILE request (updating fields in place) and builds a fresh
payload only for TERMINATE_SESSION, and that the session field of every
request comes from the engine _session, not from the received ACK. -/
def download_continue (st : EngineState) (work : Work) (item : DownloadItem)
    (payload : PayloadHeader) (write_ok : Bool) :
    EngineState × Work × DownloadItem × List Action × Bool :=
  if payload.req_opcode = CMD_READ_FILE ∧
      item.bytes_transferred < item.file_size ∧ !write_ok then
    (st, work, item, [Action.callback ClientResult.FileIoError none], false)
  else
    let item :=
      if payload.req_opcode = CMD_OPEN_FILE_RO then
        { item with file_size := u32LE payload.data }
      else item
    let item :=
      if payload.req_opcode = CMD_READ_FILE ∧
          item.bytes_transferred < item.file_size then
        { item with bytes_transferred := item.bytes_transferred + payload.size }
      else item
    let acts :=
      if payload.req_opcode = CMD_READ_FILE then
        [Action.callback ClientResult.Next
          (some ⟨item.bytes_transferred, item.file_size⟩)]
      else []
    if item.bytes_transferred < item.file_size then
      let p : PayloadHeader :=
        { work.payload with
          seq_number := st.seq_number
          session := st.session
          opcode := CMD_READ_FILE
          offset := item.bytes_transferred
          size := min max_data_length (item.file_size - item.bytes_transferred) }
      let work := { work with last_opcode := CMD_READ_FILE, payload := p }
      (bumpSeq st, work, item, acts ++ [Action.startTimer, Action.send p], true)
    else
      let p : PayloadHeader :=
        { seq_number := st.seq_number
          session := st.session
          opcode := CMD_TERMINATE_SESSION
          offset := 0
          size := 0 }
      let work := { work with last_opcode := CMD_TERMINATE_SESSION, payload := p }
      (bumpSeq st, work, item, acts ++ [Action.startTimer, Action.send p], true)

/-- MavlinkFtpClient::upload_start. exists_ok is the fs_exists check,
open_ok the ifstream health, fsize the fs_file_size result. The remote path
sent is remote_folder / basename(local_file_path); a combined length of
max_data_length or more completes with InvalidParameter before any send. -/
def upload_start (st : EngineState) (work : Work) (item : UploadItem)
    (exists_ok open_ok : Bool) (fsize : Nat) :
    EngineState × Work × UploadItem × List Action × Bool :=
  if !exists_ok then
    (st, work, item, [Action.callback ClientResult.FileDoesNotExist none], false)
  else if !open_ok then
    (st, work, item, [Action.callback ClientResult.FileIoError none], false)
  else
    let item := { item with file_size := fsize }
    let remote_file_path :=
      item.remote_folder ++ path_separator ++ fs_filename item.local_file_path
    if remote_file_path.length ≥ max_data_length then
      (st, work, item, [Action.callback ClientResult.InvalidParameter none], false)
    else
      let p : PayloadHeader :=
        { seq_number := st.seq_number
          session := 0
          opcode := CMD_OPEN_FILE_WO
          offset := 0
          data := pathData remote_file_path
          size := (remote_file_path.length + 1) % 256 }
      let work := { work with last_opcode := CMD_OPEN_FILE_WO, payload := p }
      (bumpSeq st, work, item, [Action.startTimer, Action.send p], true)

/-- MavlinkFtpClient::upload_continue, dispatched on an accepted ACK of
OPEN_FILE_WO or WRITE_FILE. read_ok is the ifstream health after readsome;
read_data is what readsome produced (at most max_data_length bytes are
taken). The Next progress callback fires at the end of both branches. -/
def upload_continue (st : EngineState) (work : Work) (item : UploadItem)
    (read_ok : Bool) (read_data : List Nat) :
    EngineState × Work × UploadItem × List Action × Bool :=
  if item.bytes_transferred < item.file_size then
    if !read_ok then
      (st, work, item, [Action.callback ClientResult.FileIoError none], false)
    else
      let chunk := read_data.take max_data_length
      let p : PayloadHeader :=
        { seq_number := st.seq_number
          session := st.session
          opcode := CMD_WRITE_FILE
          offset := item.bytes_transferred
          data := chunk
          size := chunk.length }
      let work := { work with last_opcode := CMD_WRITE_FILE, payload := p }
      let item :=
        { item with bytes_transferred := item.bytes_transferred + chunk.length }
      (bumpSeq st, work, item,
        [Action.startTimer, Action.send p,
          Action.callback ClientResult.Next
            (some ⟨item.bytes_transferred, item.file_size⟩)], true)
  else
    let p : PayloadHeader :=
      { seq_number := st.seq_number
        session := st.session
        opcode := CMD_TERMINATE_SESSION
        offset := 0
        size := 0 }
    let work := { work with last_opcode := CMD_TERMINATE_SESSION, payload := p }
    (bumpSeq st, work, item,
      [Action.startTimer, Action.send p,
        Action.callback ClientResult.Next
          (some ⟨item.bytes_transferred, item.file_size⟩)], true)

/-- The std::visit dispatch inside process_mavlink_ftp_message (the body
between the guards and the final last_seq_number write). Returns none for
the work slot when the item was popped. -/
def visitWork (st : EngineState) (work : Work) (payload : PayloadHeader)
    (write_ok read_ok : Bool) (read_data : List Nat) :
    EngineState × Option Work × List Action :=
  match work.item with
  | WorkItem.download item =>
    if payload.opcode = RSP_ACK then
      if payload.req_opcode = CMD_OPEN_FILE_RO ∨
          payload.req_opcode = CMD_READ_FILE then
        let work := { work with retries := RETRIES }
        let (st', work', item', acts, cont) :=
          download_continue st work item payload write_ok
        if cont then
          (st', some { work' with item := WorkItem.download item' }, acts)
        else
          (st', none, acts ++ [Action.stopTimer])
      else if payload.req_opcode = CMD_TERMINATE_SESSION then
        (st, none, [Action.stopTimer, Action.callback ClientResult.Success none])
      else
        (st, some work, [])
    else if payload.opcode = RSP_NAK then
      (st, none,
        [Action.stopTimer, Action.callback (result_from_nak payload) none])
    else
      (st, some work, [])
  | WorkItem.upload item =>
    if payload.opcode = RSP_ACK then
      if payload.req_opcode = CMD_OPEN_FILE_WO ∨
          payload.req_opcode = CMD_WRITE_FILE then
        let work := { work with retries := RETRIES }
        let (st', work', item', acts, cont) :=
          upload_continue st work item read_ok read_data
        if cont then
          (st', some { work' with item := WorkItem.upload item' }, acts)
        else
          (st', none, acts ++ [Action.stopTimer])
      else if payload.req_opcode = CMD_TERMINATE_SESSION then
        (st, none, [Action.stopTimer, Action.callback ClientResult.Success none])
      else
        (st, some work, [])
    else if payload.opcode = RSP_NAK then
      (st, none,
        [Action.stopTimer, Action.callback (result_from_nak payload) none])
    else
      (st, some work, [])

/-- The work-queue part of process_mavlink_ftp_message (everything under
the queue guard): ignore when the queue is empty, when req_opcode does not
match the head item, or when the duplicate guard fires (a nonzero recorded
last_seq_number equal to the inbound seq_number); otherwise visit the head
item and finally record the inbound seq_number on it when it survived. -/
def processQueue (st : EngineState) (queue : List Work)
    (payload : PayloadHeader) (write_ok read_ok : Bool)
    (read_data : List Nat) : EngineState × List Work × List Action :=
  match queue with
  | [] => (st, [], [])
  | work :: rest =>
    if work.last_opcode ≠ payload.req_opcode then
      (st, work :: rest, [])
    else if work.last_seq_number ≠ 0 ∧
        work.last_seq_number = payload.seq_number then
      (st, work :: rest, [])
    else
      match visitWork st work payload write_ok read_ok read_data with
      | (st', none, acts) => (st', rest, acts)
      | (st', some w, acts) =>
        (st', { w with last_seq_number := payload.seq_number } :: rest, acts)

/-- MavlinkFtpClient::process_mavlink_ftp_message: drop frames whose
nonzero target system or component differs from our own ids, drop payloads
whose size field exceeds max_data_length, then process against the work
queue. -/
def process (own_system_id own_component_id : Nat)
    (target_system target_component : Nat) (st : EngineState)
    (queue : List Work) (payload : PayloadHeader) (write_ok read_ok : Bool)
    (read_data : List Nat) : EngineState × List Work × List Action :=
  if target_system ≠ 0 ∧ target_system ≠ own_system_id then
    (st, queue, [])
  else if target_component ≠ 0 ∧ target_component ≠ own_component_id then
    (st, queue, [])
  else if payload.size > max_data_length then
    (st, queue, [])
  else
    processQueue st queue payload write_ok read_ok read_data

/-- MavlinkFtpClient::timeout: with a head work item present, decrement its
retries; at zero complete the item with Timeout and pop it, otherwise
resend the stored work.payload verbatim and re-arm the timer. Both variant
branches of the source are identical up to the callback type. -/
def timeout (st : EngineState) (queue : List Work) :
    EngineState × List Work × List Action :=
  match queue with
  | [] => (st, [], [])
  | work :: rest =>
    let r := work.retries - 1
    if r = 0 then
      (st, rest, [Action.callback ClientResult.Timeout none])
    else
      (st, { work with retries := r } :: rest,
        [Action.startTimer, Action.send work.payload])

/-- Iterate n timer fires, accumulating the emitted actions. -/
def fireN : Nat → EngineState × List Work × List Action →
    EngineState × List Work × List Action
  | 0, s => s
  | n + 1, (st, q, acts) =>
    let (st', q', a) := timeout st q
    fireN n (st', q', acts ++ a)

/-- Count the transport sends in an action list. -/
def countSends (acts : List Action) : Nat :=
  acts.countP fun a => match a with | Action.send _ => true | _ => false

/-- Count the Next progress callbacks in an action list. -/
def countNext (acts : List Action) : Nat :=
  acts.countP fun a =>
    match a with | Action.callback ClientResult.Next _ => true | _ => false

/-- State of the legacy single-operation path (_curr_op plus the engine
counters), used by the entry points that do not go through the work queue. -/
structure CurrOpState where
  curr_op : Nat := CMD_NONE
  seq_number : Nat := 0
  session : Nat := 0
deriving DecidableEq

/-- MavlinkFtpClient::rename_async: Busy when an operation is in flight,
InvalidParameter when both paths plus the first terminator reach
max_data_length, otherwise one RENAME request carrying
from_path NUL to_path in the data region. -/
def rename_async (st : CurrOpState) (from_path to_path : String) :
    CurrOpState × List Action :=
  if st.curr_op ≠ CMD_NONE then
    (st, [Action.callback ClientResult.Busy none])
  else if from_path.length + to_path.length + 1 ≥ max_data_length then
    (st, [Action.callback ClientResult.InvalidParameter none])
  else
    let p : PayloadHeader :=
      { seq_number := st.seq_number
        session := 0
        opcode := CMD_RENAME
        offset := 0
        data := (from_path.data.map Char.toNat) ++ [0] ++
          (to_path.data.map Char.toNat)
        size := (from_path.length + 1 + to_path.length + 1) % 256 }
    let st' : CurrOpState :=
      { st with
        curr_op := CMD_RENAME
        seq_number := (st.seq_number + 1) % 65536 }
    (st', [Action.send p])

/-- MavlinkFtpClient::create_directory_async: the body holds only the mutex
lock; the command send and the callback invocation are commented out, so the
call has no observable effect. -/
def create_directory_async (path : String) : List Action := []

/-- MavlinkFtpClient::remove_directory_async: stubbed like
create_directory_async. -/
def remove_directory_async (path : String) : List Action := []

/-- MavlinkFtpClient::remove_file_async: stubbed like
create_directory_async. -/
def remove_file_async (path : String) : List Action := []

/-- The file_size recorded on a download work item, none for uploads. -/
def itemFileSize (w : Work) : Option Nat :=
  match w.item with
  | WorkItem.download d => some d.file_size
  | WorkItem.upload _ => none

-- Concrete engine states, work items and payloads used to evaluate the
-- model on specific inputs.

/-- Engine state with a recorded wrap-around duplicate scenario. -/
def c1_state : EngineState := { seq_number := 3, session := 0 }

/-- Head work item whose last accepted response carried seq_number 0
(the value a response seq_number takes after the u16 counter wraps). -/
def c1_work : Work :=
  { item := WorkItem.download {}
    last_opcode := CMD_TERMINATE_SESSION
    last_seq_number := 0
    started := true }

/-- A retransmitted duplicate of the response recorded on c1_work. -/
def c1_dup : PayloadHeader :=
  { seq_number := 0, opcode := RSP_ACK, req_opcode := CMD_TERMINATE_SESSION }

/-- Head work item that already accepted the response with seq_number 9. -/
def c1w_work : Work :=
  { item := WorkItem.download {}
    last_opcode := CMD_TERMINATE_SESSION
    last_seq_number := 9
    started := true }

/-- A retransmitted duplicate of the response recorded on c1w_work. -/
def c1w_dup : PayloadHeader :=
  { seq_number := 9, opcode := RSP_ACK, req_opcode := CMD_TERMINATE_SESSION }

/-- Engine state mid-download, in the read loop. -/
def c3_state : EngineState := { seq_number := 20, session := 0 }

/-- Head download item in the read loop: 10 of 100 bytes transferred. -/
def c3_work : Work :=
  { item := WorkItem.download { bytes_transferred := 10, file_size := 100 }
    last_opcode := CMD_READ_FILE
    last_seq_number := 0
    started := true }

/-- A NAK carrying server code ERR_EOF for the outstanding READ_FILE. -/
def c3_nak : PayloadHeader :=
  { seq_number := 3, opcode := RSP_NAK, req_opcode := CMD_READ_FILE
    size := 1, data := [SR_ERR_EOF] }

/-- A remote path of length 239: together with its null terminator it does
not fit the 239-byte data region. -/
def c4_path : String := String.mk (List.replicate 239 'a')

/-- Download item for the oversized remote path. -/
def c4_item : DownloadItem := { remote_path := c4_path }

/-- Fresh work entry wrapping c4_item. -/
def c4_work : Work := { item := WorkItem.download c4_item }

/-- Upload item whose framed remote path is longer than the data region:
239 characters of folder, the separator and a one-character basename. -/
def c4w_long_item : UploadItem :=
  { local_file_path := "x", remote_folder := String.mk (List.replicate 239 'b') }

/-- Upload item whose framed remote path is exactly 238 characters:
229 characters of folder, the separator and an 8-character basename. -/
def c4w_ok_item : UploadItem :=
  { local_file_path := "abcdefgh"
    remote_folder := String.mk (List.replicate 229 'b') }

/-- Fresh work entry for the upload witnesses. -/
def c4w_work : Work := { item := WorkItem.upload c4w_long_item }

/-- A started work item with a stored request payload, retries at the
default. -/
def c5_work : Work :=
  { item := WorkItem.download {}
    last_opcode := CMD_READ_FILE
    started := true
    payload := { seq_number := 17, opcode := CMD_READ_FILE, size := 9 } }

/-- Engine state before the OPEN_FILE_RO ACK arrives; no session stored. -/
def c6_state : EngineState := { seq_number := 10, session := 0 }

/-- Head download item awaiting the OPEN_FILE_RO ACK. -/
def c6_work : Work :=
  { item := WorkItem.download {}
    last_opcode := CMD_OPEN_FILE_RO
    last_seq_number := 0
    started := true }

/-- ACK of OPEN_FILE_RO: the server granted session 7 and reports a file
size of 50 bytes (u32 LE in data[0..4]). -/
def c6_ack : PayloadHeader :=
  { seq_number := 11, session := 7, opcode := RSP_ACK
    req_opcode := CMD_OPEN_FILE_RO, size := 4, data := [50, 0, 0, 0] }

/-- Engine state mid-download for the progress-throttling scenario. -/
def c8_state : EngineState := { seq_number := 100, session := 0 }

/-- Head download item: 0 of 1000 bytes transferred, so the next two
one-byte reads both sit at 0 whole percent. -/
def c8_work : Work :=
  { item := WorkItem.download
      { bytes_transferred := 0, file_size := 1000, last_progress_percentage := -1 }
    last_opcode := CMD_READ_FILE
    last_seq_number := 0
    started := true }

/-- First one-byte READ_FILE ACK. -/
def c8_ack1 : PayloadHeader :=
  { seq_number := 1, opcode := RSP_ACK, req_opcode := CMD_READ_FILE
    size := 1, data := [42] }

/-- Second one-byte READ_FILE ACK. -/
def c8_ack2 : PayloadHeader :=
  { seq_number := 2, opcode := RSP_ACK, req_opcode := CMD_READ_FILE
    size := 1, data := [43] }

/-- Result of processing the first one-byte READ_FILE ACK. -/
def c8_step1 : EngineState × List Work × List Action :=
  processQueue c8_state [c8_work] c8_ack1 true true []

/-- Result of processing the second one-byte READ_FILE ACK from the state
the first one produced. -/
def c8_step2 : EngineState × List Work × List Action :=
  processQueue c8_step1.1 c8_step1.2.1 c8_ack2 true true []

/-- Engine state for the retries-reset witness. -/
def c9_state : EngineState := { seq_number := 40, session := 0 }

/-- Head download item in the read loop with a partially spent retry
budget. -/
def c9_work : Work :=
  { item := WorkItem.download { bytes_transferred := 10, file_size := 100 }
    last_opcode := CMD_READ_FILE
    last_seq_number := 4
    retries := 2
    started := true }

/-- READ_FILE ACK accepted by c9_work. -/
def c9_ack : PayloadHeader :=
  { seq_number := 5, opcode := RSP_ACK, req_opcode := CMD_READ_FILE
    size := 10, data := [1, 2, 3, 4, 5, 6, 7, 8, 9, 10] }

/-- Head work item awaiting a TERMINATE_SESSION ACK, used to make the
effect of dropping a frame observable. -/
def c10_work : Work :=
  { item := WorkItem.download {}
    last_opcode := CMD_TERMINATE_SESSION
    last_seq_number := 5
    started := true }

/-- Wildcard-addressed response whose size field exceeds max_data_length. -/
def c10_payload_oversize : PayloadHeader :=
  { seq_number := 6, opcode := RSP_ACK, req_opcode := CMD_TERMINATE_SESSION
    size := 240 }

/-- The same wildcard-addressed response with a valid size field. -/
def c10_payload_ok : PayloadHeader :=
  { seq_number := 6, opcode := RSP_ACK, req_opcode := CMD_TERMINATE_SESSION
    size := 0 }

-- Theorems settling the claims.

/-- C1 (counterexample): the claim fails in the wrap case it covers. With
the head work item having accepted a response with seq_number 0 (the value
after the u16 wrap), an inbound duplicate with the same seq_number is not
suppressed: the guard in process_mavlink_ftp_message requires a nonzero
recorded last_seq_number, so the duplicate TERMINATE_SESSION ACK invokes
the terminal callback again and pops the item, contradicting no callback,
no send and no state change. -/
theorem c1_counterexample :
    c1_work.last_seq_number = c1_dup.seq_number ∧
    processQueue c1_state [c1_work] c1_dup true true [] =
      (c1_state, [],
        [Action.stopTimer, Action.callback ClientResult.Success none]) := by
  decide

/-- C1 (amended): duplicate suppression holds exactly when the recorded
last_seq_number is nonzero: an inbound payload whose seq_number equals a
nonzero recorded last_seq_number produces no callback, no send and no
change to the work item or the engine state. When the recorded value is 0
the guard does not fire, so duplicate detection is not correct across the
65535 to 0 wrap. -/
theorem c1_amended_duplicate_suppression (st : EngineState) (w : Work)
    (rest : List Work) (p : PayloadHeader) (wk rk : Bool) (rd : List Nat)
    (hnz : w.last_seq_number ≠ 0) (hdup : w.last_seq_number = p.seq_number) :
    processQueue st (w :: rest) p wk rk rd = (st, w :: rest, []) := by
  have hnz' : p.seq_number ≠ 0 := hdup ▸ hnz
  by_cases h : w.last_opcode = p.req_opcode
  · simp [processQueue, h, hdup, hnz']
  · simp [processQueue, h]

/-- C1 (witness): the amended suppression evaluated on a concrete duplicate
of a response with nonzero seq_number 9. -/
theorem c1_witness :
    processQueue c1_state [c1w_work] c1w_dup true true [] =
      (c1_state, [c1w_work], []) :=
  c1_amended_duplicate_suppression c1_state c1w_work [] c1w_dup true true []
    (by decide) (by decide)

/-- C2 (code bug): the directory-mutation entry points are stubbed. Their
bodies hold only the mutex lock with the command send and the callback
commented out, so no call ever produces any effect, let alone exactly one
terminal callback. -/
theorem c2_stubbed_ops_have_no_effect (path : String) :
    create_directory_async path = [] ∧
    remove_directory_async path = [] ∧
    remove_file_async path = [] := by
  simp [create_directory_async, remove_directory_async, remove_file_async]

/-- C3 (counterexample): a NAK carrying ERR_EOF that arrives in the read
loop (10 of 100 bytes transferred) does not complete the download with
Success: the NAK branch applies result_from_nak uniformly, ERR_EOF has no
entry in the translation table, and the item completes with ProtocolError. -/
theorem c3_counterexample :
    processQueue c3_state [c3_work] c3_nak true true [] =
      (c3_state, [],
        [Action.stopTimer, Action.callback ClientResult.ProtocolError none]) := by
  decide

/-- C3 (amended): during a download, every accepted NAK, with no exception
for ERR_EOF in the read loop, completes the item with the client result
obtained by translating the server code (result_from_nak) and pops it. -/
theorem c3_amended_every_nak_translated (st : EngineState) (w : Work)
    (rest : List Work) (p : PayloadHeader) (wk rk : Bool) (rd : List Nat)
    (item : DownloadItem) (hitem : w.item = WorkItem.download item)
    (hop : p.opcode = RSP_NAK) (hmatch : w.last_opcode = p.req_opcode)
    (hdup : ¬(w.last_seq_number ≠ 0 ∧ w.last_seq_number = p.seq_number)) :
    processQueue st (w :: rest) p wk rk rd =
      (st, rest,
        [Action.stopTimer, Action.callback (result_from_nak p) none]) := by
  simp [processQueue, visitWork, hitem, hop, hmatch, hdup, RSP_ACK, RSP_NAK]

/-- C3 (witness): the amended NAK behaviour evaluated on the concrete
ERR_EOF NAK in the read loop. -/
theorem c3_witness :
    processQueue c3_state [c3_work] c3_nak true true [] =
      (c3_state, [],
        [Action.stopTimer, Action.callback (result_from_nak c3_nak) none]) :=
  c3_amended_every_nak_translated c3_state c3_work [] c3_nak true true []
    { bytes_transferred := 10, file_size := 100 } rfl rfl rfl (by decide)

set_option maxRecDepth 100000

/-- C4 (counterexample): download_start performs no path-length check. With
a remote path of length 239 (240 bytes framed with its null terminator) and
a healthy local sink, the operation does not complete with
InvalidParameter: it sends the OPEN_FILE_RO frame, with the path silently
truncated to 238 characters by strncpy and the u8 size field holding 240. -/
theorem c4_counterexample :
    c4_path.length = 239 ∧
    (download_start {} c4_work c4_item true).2.2.2 =
      ([Action.startTimer,
        Action.send
          { seq_number := 0, session := 0, opcode := CMD_OPEN_FILE_RO
            size := 240, offset := 0, data := pathData c4_path }], true) := by
  decide

/-- C4 (amended): the length precondition is enforced by upload (and by
rename and the other legacy-path operations), not by download. For upload,
a framed remote path of max_data_length or more completes with
InvalidParameter before any frame is sent, and anything shorter (238 or
less) is accepted and sent with size = length + 1; rename rejects combined
lengths at the same bound. download_start sends unconditionally. -/
theorem c4_amended_length_checks :
    (∀ (st : EngineState) (w : Work) (item : UploadItem) (fsize : Nat),
      max_data_length ≤
        (item.remote_folder ++ path_separator ++
          fs_filename item.local_file_path).length →
      upload_start st w item true true fsize =
        (st, w, { item with file_size := fsize },
          [Action.callback ClientResult.InvalidParameter none], false)) ∧
    (∀ (st : EngineState) (w : Work) (item : UploadItem) (fsize : Nat),
      (item.remote_folder ++ path_separator ++
          fs_filename item.local_file_path).length < max_data_length →
      (upload_start st w item true true fsize).2.2.2 =
        ([Action.startTimer,
          Action.send
            { seq_number := st.seq_number, session := 0
              opcode := CMD_OPEN_FILE_WO, offset := 0
              data := pathData (item.remote_folder ++ path_separator ++
                fs_filename item.local_file_path)
              size := ((item.remote_folder ++ path_separator ++
                fs_filename item.local_file_path).length + 1) % 256 }],
          true)) ∧
    (∀ (stc : CurrOpState) (f t : String),
      stc.curr_op = CMD_NONE → max_data_length ≤ f.length + t.length + 1 →
      rename_async stc f t =
        (stc, [Action.callback ClientResult.InvalidParameter none])) := by
  refine ⟨?_, ?_, ?_⟩
  · intro st w item fsize h
    simp only [String.length_append] at h
    simp [upload_start, h]
  · intro st w item fsize h
    have h' : ¬ max_data_length ≤
        (item.remote_folder ++ path_separator ++
          fs_filename item.local_file_path).length := not_le.mpr h
    simp only [String.length_append] at h'
    simp [upload_start, h']
  · intro stc f t hcurr h
    simp [rename_async, hcurr, h]

/-- C4 (witness): the upload and rename checks evaluated on concrete paths:
a framed remote path of length 241 is rejected with InvalidParameter, one
of length exactly 238 is accepted and sent with size 239, and a rename
whose two paths plus one terminator reach 239 is rejected. -/
theorem c4_witness :
    upload_start {} c4w_work c4w_long_item true true 10 =
      ({}, c4w_work, { c4w_long_item with file_size := 10 },
        [Action.callback ClientResult.InvalidParameter none], false) ∧
    (upload_start {} c4w_work c4w_ok_item true true 10).2.2.2 =
      ([Action.startTimer,
        Action.send
          { seq_number := 0, session := 0, opcode := CMD_OPEN_FILE_WO
            offset := 0
            data := pathData (c4w_ok_item.remote_folder ++ path_separator ++
              fs_filename c4w_ok_item.local_file_path)
            size := ((c4w_ok_item.remote_folder ++ path_separator ++
              fs_filename c4w_ok_item.local_file_path).length + 1) % 256 }],
        true) ∧
    rename_async {} (String.mk (List.replicate 200 'c'))
        (String.mk (List.replicate 38 'd')) =
      ({}, [Action.callback ClientResult.InvalidParameter none]) :=
  ⟨c4_amended_length_checks.1 {} c4w_work c4w_long_item 10 (by decide),
    c4_amended_length_checks.2.1 {} c4w_work c4w_ok_item 10 (by decide),
    c4_amended_length_checks.2.2 {} (String.mk (List.replicate 200 'c'))
      (String.mk (List.replicate 38 'd')) (by decide) (by decide)⟩

/-- C5: on a timer fire with a head item, its retries counter is
decremented; when the decremented value is nonzero the stored work.payload
is resent verbatim and the timer is re-armed, and when it reaches zero the
item completes with Timeout and is popped with no send. With the default
counter, the initial transmission from download_start (one send) plus the
timer fires until Timeout give 5 total transmission attempts (4 retries),
after which further fires produce nothing for the item. -/
theorem c5_timeout_retry :
    (∀ (st : EngineState) (w : Work) (rest : List Work),
      w.retries - 1 ≠ 0 →
      timeout st (w :: rest) =
        (st, { w with retries := w.retries - 1 } :: rest,
          [Action.startTimer, Action.send w.payload])) ∧
    (∀ (st : EngineState) (w : Work) (rest : List Work),
      w.retries - 1 = 0 →
      timeout st (w :: rest) =
        (st, rest, [Action.callback ClientResult.Timeout none])) ∧
    (countSends ((fireN 5 ({}, [c5_work], [])).2.2) = 4 ∧
      (fireN 5 ({}, [c5_work], [])).2.1 = [] ∧
      (fireN 5 ({}, [c5_work], [])).2.2.getLast? =
        some (Action.callback ClientResult.Timeout none) ∧
      (fireN 5 ({}, [c5_work], [])).2.2.all fun a =>
        a = Action.startTimer ∨ a = Action.send c5_work.payload ∨
        a = Action.callback ClientResult.Timeout none) ∧
    (fireN 6 ({}, [c5_work], []) = fireN 5 ({}, [c5_work], [])) ∧
    (∀ (st : EngineState) (w : Work) (item : DownloadItem),
      countSends ((download_start st w item true).2.2.2.1) = 1) := by
  refine ⟨?_, ?_, by decide, by decide, ?_⟩
  · intro st w rest h
    simp [timeout, h]
  · intro st w rest h
    simp [timeout, h]
  · intro st w item
    simp [download_start, countSends]

/-- C5 (witness): one fire on the default counter resends the stored
payload with the counter decremented, and a fire on a counter of 1
completes with Timeout and pops. -/
theorem c5_witness :
    timeout {} [c5_work] =
      ({}, [{ c5_work with retries := RETRIES - 1 }],
        [Action.startTimer, Action.send c5_work.payload]) ∧
    timeout {} [{ c5_work with retries := 1 }] =
      ({}, [], [Action.callback ClientResult.Timeout none]) :=
  ⟨c5_timeout_retry.1 {} c5_work [] (by decide),
    c5_timeout_retry.2.1 {} { c5_work with retries := 1 } [] (by decide)⟩

/-- C6 (counterexample): the session id granted by the server is not
stored. On the ACK of OPEN_FILE_RO carrying session 7 and file size 50,
the next READ_FILE request is sent with session 0 (the engine's untouched
_session), not with the session from the ACK. -/
theorem c6_counterexample :
    c6_ack.session = 7 ∧
    (processQueue c6_state [c6_work] c6_ack true true []).2.2 =
      [Action.startTimer,
        Action.send
          { seq_number := 10, session := 0, opcode := CMD_READ_FILE
            offset := 0, size := 50 }] := by
  decide

/-- C6 (amended): on the ACK of OPEN_FILE_RO the engine reads file_size as
a little-endian u32 from data[0..4] and leaves bytes_transferred at its
initial 0, but it does not store the session id from the ACK: the engine
session is unchanged and the follow-up request (TERMINATE_SESSION when the
file size is 0, with zero READ_FILE requests; READ_FILE otherwise) carries
the engine's pre-existing session value. -/
theorem c6_amended_open_ack (st : EngineState) (w : Work) (rest : List Work)
    (p : PayloadHeader) (rd : List Nat) (item : DownloadItem)
    (hitem : w.item = WorkItem.download item) (hop : p.opcode = RSP_ACK)
    (hreq : p.req_opcode = CMD_OPEN_FILE_RO)
    (hmatch : w.last_opcode = p.req_opcode)
    (hdup : ¬(w.last_seq_number ≠ 0 ∧ w.last_seq_number = p.seq_number))
    (hbytes : item.bytes_transferred = 0) :
    (processQueue st (w :: rest) p true true rd).1.session = st.session ∧
    ((processQueue st (w :: rest) p true true rd).2.1.head?.bind
      itemFileSize = some (u32LE p.data)) ∧
    (u32LE p.data = 0 →
      (processQueue st (w :: rest) p true true rd).2.2 =
        [Action.startTimer,
          Action.send
            { seq_number := st.seq_number, session := st.session
              opcode := CMD_TERMINATE_SESSION, offset := 0, size := 0 }]) ∧
    (0 < u32LE p.data →
      (processQueue st (w :: rest) p true true rd).2.2 =
        [Action.startTimer,
          Action.send
            { w.payload with
              seq_number := st.seq_number
              session := st.session
              opcode := CMD_READ_FILE
              offset := 0
              size := min max_data_length (u32LE p.data) }]) := by
  by_cases hz : u32LE p.data = 0
  · simp [processQueue, visitWork, download_continue, hitem, hop, hreq,
      hmatch, hdup, hbytes, hz, bumpSeq, itemFileSize, CMD_OPEN_FILE_RO,
      CMD_READ_FILE, RSP_ACK, RSP_NAK]
  · have hpos : 0 < u32LE p.data := Nat.pos_of_ne_zero hz
    simp [processQueue, visitWork, download_continue, hitem, hop, hreq,
      hmatch, hdup, hbytes, hz, hpos, bumpSeq, itemFileSize, CMD_OPEN_FILE_RO,
      CMD_READ_FILE, RSP_ACK, RSP_NAK]

/-- C6 (witness): the amended OPEN_FILE_RO ACK behaviour evaluated on the
concrete ACK carrying session 7 and file size 50: the engine session stays
what it was and the recorded file size is the decoded u32. -/
theorem c6_witness :
    (processQueue c6_state [c6_work] c6_ack true true []).1.session =
      c6_state.session ∧
    (processQueue c6_state [c6_work] c6_ack true true []).2.1.head?.bind
      itemFileSize = some (u32LE c6_ack.data) := by
  have h := c6_amended_open_ack c6_state c6_work [] c6_ack [] {} rfl rfl rfl
    rfl (by decide) rfl
  exact ⟨h.1, h.2.1⟩

/-- C7: result_from_nak maps ERR_FAIL_ERRNO with errno ENOENT in data[1]
to FileDoesNotExist, and every server result byte outside the fixed
translation table (SUCCESS, ERR_TIMEOUT, ERR_FILE_IO_ERROR,
ERR_FAIL_FILE_EXISTS, ERR_FAIL_FILE_PROTECTED, ERR_UNKOWN_COMMAND,
ERR_FAIL_FILE_DOES_NOT_EXIST) translates to ProtocolError. -/
theorem c7_nak_translation :
    (∀ p : PayloadHeader,
      dataAt p 0 = SR_ERR_FAIL_ERRNO → dataAt p 1 = ENOENT →
      result_from_nak p = ClientResult.FileDoesNotExist) ∧
    (∀ b : Nat, b ≠ SR_SUCCESS → b ≠ SR_ERR_TIMEOUT →
      b ≠ SR_ERR_FILE_IO_ERROR → b ≠ SR_ERR_FAIL_FILE_EXISTS →
      b ≠ SR_ERR_FAIL_FILE_PROTECTED → b ≠ SR_ERR_UNKOWN_COMMAND →
      b ≠ SR_ERR_FAIL_FILE_DOES_NOT_EXIST →
      translate b = ClientResult.ProtocolError) := by
  constructor
  · intro p h0 h1
    simp [result_from_nak, h0, h1, translate, SR_SUCCESS, SR_ERR_FAIL_ERRNO,
      SR_ERR_TIMEOUT, SR_ERR_FILE_IO_ERROR, SR_ERR_FAIL_FILE_EXISTS,
      SR_ERR_FAIL_FILE_PROTECTED, SR_ERR_UNKOWN_COMMAND,
      SR_ERR_FAIL_FILE_DOES_NOT_EXIST, ENOENT]
  · intro b h0 h1 h2 h3 h4 h5 h6
    simp [translate, h0, h1, h2, h3, h4, h5, h6]

/-- C7 (witness): the translation evaluated on the concrete ENOENT NAK
bytes and on the unmapped code ERR_FAIL. -/
theorem c7_witness :
    result_from_nak { size := 2, data := [SR_ERR_FAIL_ERRNO, ENOENT] } =
      ClientResult.FileDoesNotExist ∧
    translate SR_ERR_FAIL = ClientResult.ProtocolError :=
  ⟨c7_nak_translation.1 { size := 2, data := [SR_ERR_FAIL_ERRNO, ENOENT] }
      rfl rfl,
    c7_nak_translation.2 SR_ERR_FAIL (by decide) (by decide) (by decide)
      (by decide) (by decide) (by decide) (by decide)⟩

/-- C8 (counterexample): two consecutive one-byte READ_FILE ACKs at 1 and
2 of 1000 bytes leave the whole-percent value unchanged at 0, yet the
download path emits a Next progress callback for each of them: two Next
invocations, not at most one. -/
theorem c8_counterexample :
    progressPercentage 1 1000 = progressPercentage 2 1000 ∧
    countNext (c8_step1.2.2 ++ c8_step2.2.2) = 2 := by
  decide

/-- C8 (amended): the download path emits exactly one Next progress
callback on every accepted READ_FILE ACK, with no whole-percent
throttling; the throttling to whole-percent changes lives only in the
legacy _call_op_progress_callback helper, which the download path does not
call and which does emit at most one Next across two updates whose
whole-percent value is equal. -/
theorem c8_amended_progress :
    (∀ (st : EngineState) (w : Work) (rest : List Work) (p : PayloadHeader)
        (rd : List Nat) (item : DownloadItem),
      w.item = WorkItem.download item → p.opcode = RSP_ACK →
      p.req_opcode = CMD_READ_FILE → w.last_opcode = p.req_opcode →
      ¬(w.last_seq_number ≠ 0 ∧ w.last_seq_number = p.seq_number) →
      countNext ((processQueue st (w :: rest) p true true rd).2.2) = 1) ∧
    (∀ (l : Int) (b1 b2 total : Nat),
      progressPercentage b1 total = progressPercentage b2 total →
      countNext ((call_op_progress_callback l b1 total).2 ++
        (call_op_progress_callback
          (call_op_progress_callback l b1 total).1 b2 total).2) ≤ 1) := by
  constructor
  · intro st w rest p rd item hitem hop hreq hmatch hdup
    by_cases hb : item.bytes_transferred < item.file_size
    · by_cases hb2 : item.bytes_transferred + p.size < item.file_size
      · simp [processQueue, visitWork, download_continue, hitem, hop, hreq,
          hmatch, hdup, RSP_ACK, CMD_OPEN_FILE_RO, CMD_READ_FILE, hb, hb2,
          countNext]
      · simp [processQueue, visitWork, download_continue, hitem, hop, hreq,
          hmatch, hdup, RSP_ACK, CMD_OPEN_FILE_RO, CMD_READ_FILE, hb, hb2,
          countNext]
    · simp [processQueue, visitWork, download_continue, hitem, hop, hreq,
        hmatch, hdup, RSP_ACK, CMD_OPEN_FILE_RO, CMD_READ_FILE, hb,
        countNext]
  · intro l b1 b2 total h
    by_cases h1 : l = (progressPercentage b1 total : Int)
    · have h2 : l = (progressPercentage b2 total : Int) := by rw [h1, h]
      simp [call_op_progress_callback, h1, h2, h, countNext]
    · have h2 : ¬ l = (progressPercentage b2 total : Int) := by
        rw [← h]; exact h1
      simp [call_op_progress_callback, h1, h2, h, countNext]

/-- C8 (witness): the amended behaviour on the concrete scenario: the
first one-byte READ_FILE ACK emits one Next through the download path,
while the legacy helper emits at most one Next across the two equal-percent
updates. -/
theorem c8_witness :
    countNext (c8_step1.2.2) = 1 ∧
    countNext ((call_op_progress_callback (-1) 1 1000).2 ++
      (call_op_progress_callback
        (call_op_progress_callback (-1) 1 1000).1 2 1000).2) ≤ 1 :=
  ⟨c8_amended_progress.1 c8_state c8_work [] c8_ack1 []
      { bytes_transferred := 0, file_size := 1000
        last_progress_percentage := -1 } rfl rfl rfl rfl (by decide),
    c8_amended_progress.2 (-1) 1 2 1000 (by decide)⟩

/-- C9: whenever the head item accepts a non-terminal ACK of a download
(req_opcode OPEN_FILE_RO or READ_FILE) or of an upload (OPEN_FILE_WO or
WRITE_FILE) and the local file operations succeed, the dispatch resets the
retries counter to the full default RETRIES while it sends the next
request: the retry budget is per protocol step, not per operation. -/
theorem c9_retries_reset :
    (∀ (st : EngineState) (w : Work) (p : PayloadHeader) (rd : List Nat)
        (item : DownloadItem),
      w.item = WorkItem.download item → p.opcode = RSP_ACK →
      (p.req_opcode = CMD_OPEN_FILE_RO ∨ p.req_opcode = CMD_READ_FILE) →
      (visitWork st w p true true rd).2.1.map Work.retries = some RETRIES ∧
      countSends ((visitWork st w p true true rd).2.2) = 1) ∧
    (∀ (st : EngineState) (w : Work) (p : PayloadHeader) (rd : List Nat)
        (item : UploadItem),
      w.item = WorkItem.upload item → p.opcode = RSP_ACK →
      (p.req_opcode = CMD_OPEN_FILE_WO ∨ p.req_opcode = CMD_WRITE_FILE) →
      (visitWork st w p true true rd).2.1.map Work.retries = some RETRIES ∧
      countSends ((visitWork st w p true true rd).2.2) = 1) := by
  constructor
  · intro st w p rd item hitem hop hreq
    rcases hreq with h | h
    · by_cases hb : item.bytes_transferred < u32LE p.data
      · simp [visitWork, download_continue, hitem, hop, h, RSP_ACK,
          CMD_OPEN_FILE_RO, CMD_READ_FILE, hb, countSends]
      · simp [visitWork, download_continue, hitem, hop, h, RSP_ACK,
          CMD_OPEN_FILE_RO, CMD_READ_FILE, hb, countSends]
    · by_cases hb : item.bytes_transferred < item.file_size
      · by_cases hb2 : item.bytes_transferred + p.size < item.file_size
        · simp [visitWork, download_continue, hitem, hop, h, RSP_ACK,
            CMD_OPEN_FILE_RO, CMD_READ_FILE, hb, hb2, countSends]
        · simp [visitWork, download_continue, hitem, hop, h, RSP_ACK,
            CMD_OPEN_FILE_RO, CMD_READ_FILE, hb, hb2, countSends]
      · simp [visitWork, download_continue, hitem, hop, h, RSP_ACK,
          CMD_OPEN_FILE_RO, CMD_READ_FILE, hb, countSends]
  · intro st w p rd item hitem hop hreq
    rcases hreq with h | h <;>
      by_cases hb : item.bytes_transferred < item.file_size <;>
        simp [visitWork, upload_continue, hitem, hop, h, RSP_ACK,
          CMD_OPEN_FILE_WO, CMD_WRITE_FILE, hb, countSends]

/-- C9 (witness): the retries reset evaluated on a concrete READ_FILE ACK
accepted by a head item whose budget was down to 2. -/
theorem c9_witness :
    (visitWork c9_state c9_work c9_ack true true []).2.1.map Work.retries =
      some RETRIES ∧
    countSends ((visitWork c9_state c9_work c9_ack true true []).2.2) = 1 :=
  c9_retries_reset.1 c9_state c9_work c9_ack []
    { bytes_transferred := 10, file_size := 100 } rfl rfl (Or.inr rfl)

/-- C10 (counterexample): a payload addressed with wildcard target ids 0/0
is not always processed: when its size field exceeds max_data_length it is
dropped before reaching the work queue, while the same payload with a
valid size reaches the head item and completes it. -/
theorem c10_counterexample :
    process 1 1 0 0 {} [c10_work] c10_payload_oversize true true [] =
      ({}, [c10_work], []) ∧
    process 1 1 0 0 {} [c10_work] c10_payload_ok true true [] =
      ({}, [],
        [Action.stopTimer, Action.callback ClientResult.Success none]) := by
  decide

/-- C10 (amended): a payload whose target_system is 0 or our own id and
whose target_component is 0 or our own id passes the target filter as a
wildcard and, provided its size field is at most max_data_length, is
handed to the work-queue processing; a nonzero mismatched target system or
component drops the payload before it reaches the work queue. -/
theorem c10_amended_filtering (own_s own_c t_s t_c : Nat) (st : EngineState)
    (q : List Work) (p : PayloadHeader) (wk rk : Bool) (rd : List Nat) :
    ((t_s = 0 ∨ t_s = own_s) → (t_c = 0 ∨ t_c = own_c) →
      p.size ≤ max_data_length →
      process own_s own_c t_s t_c st q p wk rk rd =
        processQueue st q p wk rk rd) ∧
    (t_s ≠ 0 → t_s ≠ own_s →
      process own_s own_c t_s t_c st q p wk rk rd = (st, q, [])) ∧
    (t_s = 0 → t_c ≠ 0 → t_c ≠ own_c →
      process own_s own_c t_s t_c st q p wk rk rd = (st, q, [])) := by
  refine ⟨?_, ?_, ?_⟩
  · intro hs hc hsize
    have hns : ¬(t_s ≠ 0 ∧ t_s ≠ own_s) := by
      rcases hs with h | h <;> simp [h]
    have hnc : ¬(t_c ≠ 0 ∧ t_c ≠ own_c) := by
      rcases hc with h | h <;> simp [h]
    have hnsize : ¬ p.size > max_data_length := not_lt.mpr hsize
    simp [process, hns, hnc, hnsize]
  · intro h1 h2
    simp [process, h1, h2]
  · intro h1 h2 h3
    simp [process, h1, h2, h3]

/-- C10 (witness): the filtering evaluated on concrete addressing: the
wildcard-addressed valid payload is handed to the queue processing, and a
mismatched nonzero target system is dropped with no effect. -/
theorem c10_witness :
    process 1 1 0 0 {} [c10_work] c10_payload_ok true true [] =
      processQueue {} [c10_work] c10_payload_ok true true [] ∧
    process 1 1 2 1 {} [c10_work] c10_payload_ok true true [] =
      ({}, [c10_work], []) :=
  ⟨(c10_amended_filtering 1 1 0 0 {} [c10_work] c10_payload_ok true true
        []).1 (Or.inl rfl) (Or.inl rfl) (by decide),
    (c10_amended_filtering 1 1 2 1 {} [c10_work] c10_payload_ok true true
        []).2.1 (by decide) (by decide)⟩

end MavlinkFtpClient
